import Mathlib

/-!
Shallow embedding of the Express-Jobly `Job` model (src/models/job.js) and of
the partial-update SQL builder it calls, together with proofs of the
specification's claims about them.

Number values are modelled as rationals: every numeric literal occurring in the
source and in the claims (salaries, equity fractions, the 1,000,000 ceiling) is
exactly representable, and the order/equality comparisons the code performs
coincide with the rational ones.
-/

deriving instance DecidableEq for Except

namespace Jobly

/-- A JavaScript value as it appears in row fields and bound parameters:
either a native number or a string. -/
inductive Value where
  | num (q : ℚ)
  | str (s : String)
deriving DecidableEq, Repr

/-- Left-pad a digit string with zeros to width `k`. -/
def padZeros (s : String) (k : Nat) : String :=
  String.mk (List.replicate (k - s.length) '0') ++ s

/-- Smallest exponent `k ≤ 30` with `d ∣ 10 ^ k` (30 as a fallback; every
denominator the store actually holds divides a power of ten, since the store's
fixed-point column holds terminating decimals). -/
def decPow (d : Nat) : Nat :=
  ((List.range 31).find? (fun k => (10 ^ k) % d == 0)).getD 30

/-- Modelled from the spec: the store "may return a fixed-point/text
representation" for the NUMERIC `equity` column; this is that text — the
decimal rendering of the stored number. -/
def decimalText (q : ℚ) : String :=
  let sign := if q.num < 0 then "-" else ""
  let a := q.num.natAbs
  let d := q.den
  let k := decPow d
  let n := a * 10 ^ k / d
  let ip := n / 10 ^ k
  let fp := n % 10 ^ k
  if k == 0 then sign ++ toString ip
  else sign ++ toString ip ++ "." ++ padZeros (toString fp) k

/-- Value of a digit list read in base ten. -/
def digitsToNat (l : List Char) : Nat :=
  l.foldl (fun a c => a * 10 + (c.toNat - 48)) 0

/-- Split a character list at the first decimal point. -/
def splitAtDot : List Char → List Char × Option (List Char)
  | [] => ([], none)
  | '.' :: rest => ([], some rest)
  | c :: rest =>
      let p := splitAtDot rest
      (c :: p.1, p.2)

/-- Modelled from the spec: JavaScript `parseFloat` on the store's decimal
text — sign, integer part, optional fractional part. -/
def parseDec (s : String) : ℚ :=
  let p : Bool × List Char :=
    match s.data with
    | '-' :: rest => (true, rest)
    | l => (false, l)
  let ipfp := splitAtDot p.2
  let q : ℚ :=
    match ipfp.2 with
    | none => (digitsToNat ipfp.1 : ℚ)
    | some fp => (digitsToNat ipfp.1 : ℚ) + (digitsToNat fp : ℚ) / (10 ^ fp.length : ℚ)
  if p.1 then -q else q

/-- JavaScript `parseFloat` applied to a row field: a number is returned
unchanged (JS stringifies and re-parses it, the identity on these values);
text is parsed as a decimal. -/
def parseFloatValue : Value → ℚ
  | Value.num q => q
  | Value.str s => parseDec s

/-- ASCII lower-casing, modelling both JavaScript's `toLowerCase()` and SQL's
`LOWER` on the data this program handles (`Char.toLower` maps exactly
`'A'..'Z'`). -/
def lowerStr (s : String) : String :=
  String.mk (s.data.map Char.toLower)

/-- A row of the `jobs` table as stored:
`jobs(title, salary, equity, company_handle)`. -/
structure JobRow where
  title : String
  salary : ℚ
  equity : ℚ
  companyHandle : String
deriving DecidableEq, Repr

/-- The argument object of `Job.create`:
`{ title, salary, equity, companyHandle }`. -/
structure JobInput where
  title : String
  salary : ℚ
  equity : ℚ
  companyHandle : String
deriving DecidableEq, Repr

/-- A job object as the driver hands it back from a `SELECT`/`RETURNING`:
`salary` (an integer column) arrives as a native number, `equity` (a
fixed-point column) arrives as a `Value` — text from the store. -/
structure JobOut where
  title : String
  salary : ℚ
  equity : Value
  companyHandle : String
deriving DecidableEq, Repr

/-- Driver output conversion for one stored row (equity as store text). -/
def rowToOut (r : JobRow) : JobOut :=
  { title := r.title
    salary := r.salary
    equity := Value.str (decimalText r.equity)
    companyHandle := r.companyHandle }

/-- The two typed errors of src/expressError.js that src/models/job.js
throws: `BadRequestError` (the spec's ValidationError) and `NotFoundError`. -/
inductive JError where
  | badRequestError (msg : String)
  | notFoundError (msg : String)
deriving DecidableEq, Repr

/-- The jobs table. -/
abbrev Db := List JobRow

/-- Statements `Job.create` sends to the store, in execution order. -/
inductive Stmt where
  | selectDup (param : String)
  | insertJob (r : JobRow)
deriving DecidableEq, Repr

/-- SQL `LIKE` matching on character lists: `%` matches any sequence, `_` any
single character, anything else itself; the pattern must cover the whole
string. Structural recursion on the pattern. -/
def likeMatchL : List Char → List Char → Bool
  | [], s => s.isEmpty
  | '%' :: ps, s => s.tails.any (fun t => likeMatchL ps t)
  | '_' :: ps, s =>
      match s with
      | [] => false
      | _ :: s' => likeMatchL ps s'
  | p :: ps, s =>
      match s with
      | [] => false
      | c :: s' => p == c && likeMatchL ps s'

/-- SQL `LIKE` on strings. -/
def likeMatch (pat s : String) : Bool :=
  likeMatchL pat.data s.data

/-- The five SQL predicate fragments `Job._createWhereSqlQueryFilters` can
emit, each carrying the data the source splices into the fragment text. -/
inductive Pred where
  | titleLike (pat : String)
  | salaryGe (q : ℚ)
  | equityGt0
  | equityEq0
  | equityGe0
deriving DecidableEq, Repr

/-- The SQL text of each fragment, as the source writes it. -/
def Pred.sql : Pred → String
  | Pred.titleLike pat => "LOWER(title) LIKE " ++ "'" ++ pat ++ "'"
  | Pred.salaryGe q => "salary >= " ++ toString q
  | Pred.equityGt0 => "equity > 0"
  | Pred.equityEq0 => "equity = 0"
  | Pred.equityGe0 => "equity >= 0"

/-- Whether a stored row satisfies a fragment, per SQL semantics. -/
def evalPred (r : JobRow) : Pred → Bool
  | Pred.titleLike pat => likeMatch pat (lowerStr r.title)
  | Pred.salaryGe q => decide (q ≤ r.salary)
  | Pred.equityGt0 => decide (0 < r.equity)
  | Pred.equityEq0 => decide (r.equity = 0)
  | Pred.equityGe0 => decide (0 ≤ r.equity)

/-- Is the fragment one of the three equity clauses? -/
def Pred.isEquityClause : Pred → Bool
  | Pred.equityGt0 => true
  | Pred.equityEq0 => true
  | Pred.equityGe0 => true
  | _ => false

/-- Modelled from the spec: `sqlForPartialUpdate` (helpers/sql.js) is imported
by src/models/job.js but its definition is not among the sources under review;
this follows the spec's PartialUpdateBuilder contract — reject an empty
mapping with a ValidationError before generating any placeholder, otherwise
emit, in the insertion order of the mapping's keys, the clause list
`"<quoted-column>"=$<i+1>` (column = override if present, else the key) and
the parallel bound-value list — and agrees with the unit test shipped in the
sources (`setCols` of the test's three-field example). The clause list is
returned unjoined; `Job.update` joins it with ", " after `SET`. -/
def sqlForPartialUpdate (data : List (String × Value)) (jsToSql : List (String × String)) :
    Except JError (List String × List Value) :=
  if data.isEmpty then
    Except.error (JError.badRequestError "No data")
  else
    Except.ok
      (data.enum.map (fun p =>
        "\"" ++ ((jsToSql.lookup p.2.1).getD p.2.1) ++ "\"=$" ++ toString (p.1 + 1)),
       data.map Prod.snd)

namespace Job

/-- The rows a statement `WHERE LOWER(title) = $1` with parameter
`key.toLowerCase()` selects, in table order. -/
def matchesLowerTitle (db : Db) (key : String) : List JobRow :=
  db.filter (fun r => lowerStr r.title == lowerStr key)

/-- `Job.create` (src/models/job.js, lines 19-56). Computes the two checks,
executes the duplicate-lookup SELECT, then throws in source order — equity,
salary, duplicate — and otherwise inserts and returns the new row with
`job.equity = parseFloat(job.equity)`. Returns (result, table after, executed
statements in order). -/
def create (db : Db) (x : JobInput) : Except JError JobOut × Db × List Stmt :=
  let equityCheck := x.equity ≤ 1
  let salaryCheck := 0 ≤ x.salary
  let dupParam := lowerStr x.title
  let dupRows := matchesLowerTitle db x.title
  let log := [Stmt.selectDup dupParam]
  if ¬ equityCheck then
    (Except.error (JError.badRequestError
      ("Equity value for job is invalid (<= 1.0): " ++ toString x.equity)), db, log)
  else if ¬ salaryCheck then
    (Except.error (JError.badRequestError
      ("Salary value for job is invalid (>= 0): " ++ toString x.salary)), db, log)
  else if dupRows.head?.isSome then
    (Except.error (JError.badRequestError ("Duplicate job: " ++ x.title)), db, log)
  else
    let row : JobRow :=
      { title := x.title, salary := x.salary, equity := x.equity,
        companyHandle := x.companyHandle }
    let out := rowToOut row
    let job := { out with equity := Value.num (parseFloatValue out.equity) }
    (Except.ok job, db ++ [row], log ++ [Stmt.insertJob row])

/-- Is `minSalary >= 1000000` in JS terms (`null` compares below). -/
def minSalaryCeiling : Option ℚ → Bool
  | none => false
  | some q => decide (1000000 ≤ q)

/-- JS truthiness of the `minSalary` argument (`0` and `null` are falsy). -/
def minSalaryTruthy : Option ℚ → Bool
  | none => false
  | some q => decide (q ≠ 0)

/-- `Job._createWhereSqlQueryFilters` (src/models/job.js, lines 63-95):
reject `minSalary >= 1000000`, then push, in source order, the title LIKE
fragment when `title.length > 0`, the `salary >=` fragment when `minSalary`
is truthy, and exactly one of the three equity fragments according to
`hasEquity` (empty / lower-cases to "true" / lower-cases to "false");
each conditional push is an append of a singleton. Defaults mirror the
source's parameter defaults (`""`, `null`, `""`). -/
def createWhereSqlQueryFilters (title : String := "") (minSalary : Option ℚ := none)
    (hasEquity : String := "") : Except JError (List Pred) :=
  if minSalaryCeiling minSalary then
    Except.error (JError.badRequestError
      "Salary exceeds salary limit: Less than $1,000,000")
  else
    let titleSql := Pred.titleLike ("%" ++ lowerStr title ++ "%")
    let minSalarySql := Pred.salaryGe ((minSalary.getD 0))
    let queries : List Pred :=
      (if title.length > 0 then [titleSql] else []) ++
      (if minSalaryTruthy minSalary then [minSalarySql] else []) ++
      (if hasEquity.length == 0 then [Pred.equityGe0] else []) ++
      (if lowerStr hasEquity == "true" then [Pred.equityGt0] else []) ++
      (if lowerStr hasEquity == "false" then [Pred.equityEq0] else [])
    Except.ok queries

/-- `Job.findAll` (src/models/job.js, lines 102-117): compile the filters and
return the rows satisfying every compiled fragment, in table order. -/
def findAll (db : Db) (title : String := "") (minSalary : Option ℚ := none)
    (hasEquity : String := "") : Except JError (List JobRow) :=
  (createWhereSqlQueryFilters title minSalary hasEquity).map
    (fun qs => db.filter (fun r => qs.all (evalPred r)))

/-- `Job.get` (src/models/job.js, lines 127-140): `SELECT ... WHERE
LOWER(title) = $1` with `title.toLowerCase()`, `NotFoundError` when no row,
otherwise the first matching row as the driver returns it (no equity
normalization). -/
def get (db : Db) (title : String) : Except JError JobOut :=
  match (matchesLowerTitle db title).head? with
  | none => Except.error (JError.notFoundError ("No job: " ++ title))
  | some r => Except.ok (rowToOut r)

/-- Effect of one `SET` assignment of the UPDATE statement on a row. -/
def applyField (r : JobRow) (kv : String × Value) : JobRow :=
  match kv with
  | ("title", Value.str s) => { r with title := s }
  | ("salary", Value.num q) => { r with salary := q }
  | ("equity", Value.num q) => { r with equity := q }
  | ("companyHandle", Value.str s) => { r with companyHandle := s }
  | _ => r

/-- Effect of the whole `SET` list on a row. -/
def applyUpdates (r : JobRow) (data : List (String × Value)) : JobRow :=
  data.foldl applyField r

/-- `Job.update` (src/models/job.js, lines 154-176): build the SET clause via
`sqlForPartialUpdate` with the `companyHandle → company_handle` override, run
`UPDATE ... WHERE LOWER(title) = $n` with `title.toLowerCase()` as the last
bound value, `NotFoundError` when no row was affected, else the first updated
row as returned (no equity normalization). Returns (result, table after). -/
def update (db : Db) (title : String) (data : List (String × Value)) :
    Except JError JobOut × Db :=
  match sqlForPartialUpdate data [("companyHandle", "company_handle")] with
  | Except.error e => (Except.error e, db)
  | Except.ok _ =>
      match (matchesLowerTitle db title).head? with
      | none => (Except.error (JError.notFoundError ("No job: " ++ title)), db)
      | some r =>
          let db' := db.map (fun s =>
            if lowerStr s.title == lowerStr title then applyUpdates s data else s)
          (Except.ok (rowToOut (applyUpdates r data)), db')

/-- `Job.remove` (src/models/job.js, lines 183-195): `DELETE ... WHERE
LOWER(title) = $1 RETURNING title`, `NotFoundError` when no row was deleted,
else no value. Returns (result, table after). -/
def remove (db : Db) (title : String) : Except JError Unit × Db :=
  let kept := db.filter (fun r => ¬ (lowerStr r.title == lowerStr title))
  match (matchesLowerTitle db title).head? with
  | none => (Except.error (JError.notFoundError ("No job: " ++ title)), kept)
  | some _ => (Except.ok (), kept)

end Job

/-! ## Helper lemmas -/

theorem matchesLowerTitle_head_isSome (db : Db) (key : String) :
    ((Job.matchesLowerTitle db key).head?.isSome = true) ↔
      ∃ r ∈ db, lowerStr r.title = lowerStr key := by
  rw [List.head?_isSome, ne_eq, Job.matchesLowerTitle, List.filter_eq_nil_iff]
  push_neg
  simp

theorem matchesLowerTitle_head_none (db : Db) (key : String) :
    ((Job.matchesLowerTitle db key).head? = none) ↔
      ∀ r ∈ db, lowerStr r.title ≠ lowerStr key := by
  rw [List.head?_eq_none_iff, Job.matchesLowerTitle, List.filter_eq_nil_iff]
  simp

theorem get_isOk_eq (db : Db) (key : String) :
    (Job.get db key).isOk = ((Job.matchesLowerTitle db key).head?).isSome := by
  unfold Job.get
  cases (Job.matchesLowerTitle db key).head? <;> rfl

theorem update_isOk_eq (db : Db) (key : String) (data : List (String × Value)) (hd : data ≠ []) :
    ((Job.update db key data).1).isOk = ((Job.matchesLowerTitle db key).head?).isSome := by
  rw [Job.update, sqlForPartialUpdate, if_neg (by simpa [List.isEmpty_iff] using hd)]
  cases (Job.matchesLowerTitle db key).head? <;> rfl

theorem remove_isOk_eq (db : Db) (key : String) :
    ((Job.remove db key).1).isOk = ((Job.matchesLowerTitle db key).head?).isSome := by
  rw [Job.remove]
  cases (Job.matchesLowerTitle db key).head? <;> rfl

theorem create_isOk_eq (db : Db) (x : JobInput) (he : x.equity ≤ 1) (hs : 0 ≤ x.salary) :
    ((Job.create db x).1).isOk = !((Job.matchesLowerTitle db x.title).head?).isSome := by
  rw [Job.create, if_neg (not_not_intro he), if_neg (not_not_intro hs)]
  cases hh : (Job.matchesLowerTitle db x.title).head?.isSome
  · rw [if_neg (by simp [hh])]
    rfl
  · rw [if_pos (by simp [hh])]
    rfl

theorem string_length_zero_iff (s : String) : s.length = 0 ↔ s = "" := by
  cases s with
  | mk data =>
    constructor
    · intro h
      have hd : data = [] := List.length_eq_zero.mp (by simpa [String.length] using h)
      rw [hd]
    · intro h
      rw [h]
      rfl

theorem filters_ok (t : String) (ms : Option ℚ) (he : String)
    (h : Job.minSalaryCeiling ms = false) :
    Job.createWhereSqlQueryFilters t ms he = Except.ok (
      (if t.length > 0 then [Pred.titleLike ("%" ++ lowerStr t ++ "%")] else []) ++
      (if Job.minSalaryTruthy ms then [Pred.salaryGe (ms.getD 0)] else []) ++
      (if he.length == 0 then [Pred.equityGe0] else []) ++
      (if lowerStr he == "true" then [Pred.equityGt0] else []) ++
      (if lowerStr he == "false" then [Pred.equityEq0] else [])) := by
  rw [Job.createWhereSqlQueryFilters, if_neg (by simp [h])]

theorem likeMatchL_percent_cons (ps : List Char) (s : List Char)
    (h : likeMatchL ps [] = true) : likeMatchL ('%' :: ps) s = true := by
  simp only [likeMatchL, List.any_eq_true]
  exact ⟨[], (List.mem_tails _ _).mpr List.nil_suffix, h⟩

theorem likeMatch_triple_percent (s : String) : likeMatch "%%%" s = true := by
  show likeMatchL ('%' :: '%' :: '%' :: []) s.data = true
  exact likeMatchL_percent_cons _ _ (likeMatchL_percent_cons _ _ (likeMatchL_percent_cons _ _ rfl))

/-! ## Claims -/

/-- C1: for every non-empty UpdateRequest `u` and every override map `m`, the
partial-update builder returns a clause list and a bound-value list of equal
length `|u|`; the i-th clause is the quoted column name (`m[key_i]` if
present, else `key_i`) equated to the positional placeholder `$(i+1)`, and
the i-th bound value is `u`'s value for `key_i`, in the insertion order of
`u`'s keys. -/
theorem sqlForPartialUpdate_builds_ordered_clauses
    (data : List (String × Value)) (m : List (String × String)) (h : data ≠ []) :
    ∃ cols vals, sqlForPartialUpdate data m = Except.ok (cols, vals) ∧
      cols.length = data.length ∧ vals.length = data.length ∧
      ∀ i k v, data[i]? = some (k, v) →
        cols[i]? = some ("\"" ++ ((m.lookup k).getD k) ++ "\"=$" ++ toString (i + 1)) ∧
        vals[i]? = some v := by
  refine ⟨data.enum.map (fun p =>
      "\"" ++ ((m.lookup p.2.1).getD p.2.1) ++ "\"=$" ++ toString (p.1 + 1)),
    data.map Prod.snd, ?_, ?_, ?_, ?_⟩
  · unfold sqlForPartialUpdate
    rw [if_neg]
    simp [List.isEmpty_iff, h]
  · simp [List.enum_length]
  · simp
  · intro i k v hiv
    constructor
    · rw [List.getElem?_map, List.getElem?_enum, hiv]
      rfl
    · rw [List.getElem?_map, hiv]
      rfl

/-- Witness for C1 at the three-field example of the repository's own unit
test for `sqlForPartialUpdate`. -/
theorem sqlForPartialUpdate_builds_ordered_clauses_witness :
    ([("firstName", Value.str "Aliya"), ("age", Value.num 32),
        ("logoUrl", Value.str "https://image.jpg")] ≠ ([] : List (String × Value))) ∧
    (∃ cols vals,
      sqlForPartialUpdate
        [("firstName", Value.str "Aliya"), ("age", Value.num 32),
          ("logoUrl", Value.str "https://image.jpg")]
        [("firstName", "first_name"), ("logoUrl", "logo_url")] = Except.ok (cols, vals) ∧
      cols.length = 3 ∧ vals.length = 3 ∧
      ∀ i k v,
        ([("firstName", Value.str "Aliya"), ("age", Value.num 32),
          ("logoUrl", Value.str "https://image.jpg")] : List (String × Value))[i]? = some (k, v) →
        cols[i]? = some ("\"" ++
          (([("firstName", "first_name"), ("logoUrl", "logo_url")].lookup k).getD k) ++
          "\"=$" ++ toString (i + 1)) ∧
        vals[i]? = some v) :=
  ⟨by decide, sqlForPartialUpdate_builds_ordered_clauses _ _ (by decide)⟩

/-- C7: every natural-key comparison for Job uses the lowercased title — get,
update and remove succeed exactly when some stored row's lowercased title
equals the lowercased argument key, and create's duplicate check (with the
other checks passing and the same title) fails exactly when such a row
exists, so two titles differing only in case denote the same resource. -/
theorem job_key_comparisons_lowercase (db : Db) (key : String) :
    ((Job.get db key).isOk = true ↔ ∃ r ∈ db, lowerStr r.title = lowerStr key) ∧
    (∀ data : List (String × Value), data ≠ [] →
      (((Job.update db key data).1).isOk = true ↔ ∃ r ∈ db, lowerStr r.title = lowerStr key)) ∧
    (((Job.remove db key).1).isOk = true ↔ ∃ r ∈ db, lowerStr r.title = lowerStr key) ∧
    (∀ x : JobInput, x.title = key → x.equity ≤ 1 → 0 ≤ x.salary →
      (((Job.create db x).1).isOk = true ↔ ¬ ∃ r ∈ db, lowerStr r.title = lowerStr key)) := by
  refine ⟨?_, ?_, ?_, ?_⟩
  · rw [get_isOk_eq]
    exact matchesLowerTitle_head_isSome db key
  · intro data hd
    rw [update_isOk_eq db key data hd]
    exact matchesLowerTitle_head_isSome db key
  · rw [remove_isOk_eq]
    exact matchesLowerTitle_head_isSome db key
  · intro x hx he hs
    rw [create_isOk_eq db x he hs, hx, Bool.not_eq_true', ← matchesLowerTitle_head_isSome db key]
    simp

/-- Witness for C7: a store holding "Job1" queried under the key "JOB1". -/
theorem job_key_comparisons_lowercase_witness :
    ((((Job.update [{ title := "Job1", salary := 1, equity := 0, companyHandle := "c1" }] "JOB1"
        [("salary", Value.num 2)]).1).isOk = true) ↔
      ∃ r ∈ [({ title := "Job1", salary := 1, equity := 0, companyHandle := "c1" } : JobRow)],
        lowerStr r.title = lowerStr "JOB1") ∧
    ((((Job.create [{ title := "Job1", salary := 1, equity := 0, companyHandle := "c1" }]
        { title := "JOB1", salary := 2, equity := 0, companyHandle := "c2" }).1).isOk = true) ↔
      ¬ ∃ r ∈ [({ title := "Job1", salary := 1, equity := 0, companyHandle := "c1" } : JobRow)],
        lowerStr r.title = lowerStr "JOB1") :=
  ⟨(job_key_comparisons_lowercase _ "JOB1").2.1 _ (by decide),
   (job_key_comparisons_lowercase _ "JOB1").2.2.2 _ (by decide) (by decide) (by decide)⟩

/-- C8: for every key no stored row matches (lowercased), get fails with
NotFoundError, update with any non-empty data fails with NotFoundError, and
remove fails with NotFoundError; remove on an existing key returns no
value. -/
theorem missing_key_not_found (db : Db) (key : String)
    (h : ∀ r ∈ db, lowerStr r.title ≠ lowerStr key) :
    (Job.get db key = Except.error (JError.notFoundError ("No job: " ++ key))) ∧
    (∀ data : List (String × Value), data ≠ [] →
      (Job.update db key data).1 = Except.error (JError.notFoundError ("No job: " ++ key))) ∧
    ((Job.remove db key).1 = Except.error (JError.notFoundError ("No job: " ++ key))) ∧
    (∀ db' : Db, ∀ r ∈ db', lowerStr r.title = lowerStr key →
      (Job.remove db' key).1 = Except.ok ()) := by
  have hn : (Job.matchesLowerTitle db key).head? = none :=
    (matchesLowerTitle_head_none db key).mpr h
  refine ⟨?_, ?_, ?_, ?_⟩
  · rw [Job.get, hn]
  · intro data hd
    rw [Job.update, sqlForPartialUpdate, if_neg (by simpa [List.isEmpty_iff] using hd), hn]
  · rw [Job.remove, hn]
  · intro db' r hr hlow
    have hs : (Job.matchesLowerTitle db' key).head?.isSome = true :=
      (matchesLowerTitle_head_isSome db' key).mpr ⟨r, hr, hlow⟩
    rw [Job.remove]
    cases hh : (Job.matchesLowerTitle db' key).head? with
    | none =>
        rw [hh] at hs
        simp at hs
    | some _ =>
        rfl

/-- Witness for C8: a store holding only "Job1" queried under "nope". -/
theorem missing_key_not_found_witness :
    Job.get [{ title := "Job1", salary := 1, equity := 0, companyHandle := "c1" }] "nope"
      = Except.error (JError.notFoundError ("No job: " ++ "nope")) :=
  (missing_key_not_found _ "nope" (by decide)).1

/-- C2: the Job filter compiler fails with a ValidationError for every
`minSalary` at or above 1,000,000 (before any predicate is built — the error
result carries no predicate list); for `minSalary` absent/null or zero (the
falsy values in [0, 1,000,000)) no salary predicate is emitted; and for every
other `minSalary` in that range the predicate `salary >= minSalary` is
emitted, which excludes exactly the rows with `salary < minSalary`. -/
theorem minSalary_filter_spec :
    (∀ q : ℚ, 1000000 ≤ q → ∀ t he, Job.createWhereSqlQueryFilters t (some q) he =
      Except.error (JError.badRequestError "Salary exceeds salary limit: Less than $1,000,000")) ∧
    (∀ t he qs, Job.createWhereSqlQueryFilters t none he = Except.ok qs →
      ∀ q' : ℚ, Pred.salaryGe q' ∉ qs) ∧
    (∀ t he qs, Job.createWhereSqlQueryFilters t (some 0) he = Except.ok qs →
      ∀ q' : ℚ, Pred.salaryGe q' ∉ qs) ∧
    (∀ q : ℚ, 0 < q → q < 1000000 → ∀ t he qs,
      Job.createWhereSqlQueryFilters t (some q) he = Except.ok qs →
      Pred.salaryGe q ∈ qs ∧
      ∀ r : JobRow, (evalPred r (Pred.salaryGe q) = false ↔ r.salary < q)) := by
  refine ⟨?_, ?_, ?_, ?_⟩
  · intro q hq t he
    rw [Job.createWhereSqlQueryFilters, if_pos (by simp [Job.minSalaryCeiling, hq])]
  · intro t he qs hq q'
    rw [filters_ok t none he (by rfl)] at hq
    obtain rfl := Except.ok.inj hq
    intro hmem
    simp only [List.mem_append] at hmem
    rcases hmem with ((((h1 | h2) | h3) | h4) | h5) <;>
      [skip; simp [Job.minSalaryTruthy] at h2; skip; skip; skip] <;>
      split_ifs at * <;> simp_all
  · intro t he qs hq q'
    rw [filters_ok t (some 0) he (by rfl)] at hq
    obtain rfl := Except.ok.inj hq
    intro hmem
    simp only [List.mem_append] at hmem
    rcases hmem with ((((h1 | h2) | h3) | h4) | h5) <;>
      split_ifs at * <;> simp_all [Job.minSalaryTruthy]
  · intro q h0 h1M t he qs hq
    rw [filters_ok t (some q) he
      (by simp [Job.minSalaryCeiling, not_le.mpr h1M])] at hq
    obtain rfl := Except.ok.inj hq
    constructor
    · have ht : Job.minSalaryTruthy (some q) = true := by
        simp [Job.minSalaryTruthy]
        exact ne_of_gt h0
      simp [List.mem_append, ht]
    · intro r
      simp [evalPred, not_le]

/-- Witness for C2: the ceiling fires at exactly 1,000,000, and 50,001 (from
the repository's own route test) produces the `salary >= 50001` predicate. -/
theorem minSalary_filter_spec_witness :
    (Job.createWhereSqlQueryFilters "" (some 1000000) "" =
      Except.error (JError.badRequestError "Salary exceeds salary limit: Less than $1,000,000")) ∧
    (Pred.salaryGe 50001 ∈ [Pred.salaryGe 50001, Pred.equityGe0] ∧
      ∀ r : JobRow, (evalPred r (Pred.salaryGe 50001) = false ↔ r.salary < 50001)) :=
  ⟨minSalary_filter_spec.1 1000000 (by decide) "" "",
   minSalary_filter_spec.2.2.2 50001 (by decide) (by decide) "" "" _ (by decide)⟩

/-- C3 counterexample: for the input "maybe" — neither empty nor lower-casing
to "true"/"false" — the compiler emits NO clause at all for the equity field
(the output is empty, in particular it does not contain `equity >= 0`),
refuting both "a clause is always present for this field" and "every other
value is treated as falsy" (the falsy/empty case emits `equity >= 0`). -/
theorem hasEquity_other_value_no_clause_cex :
    Job.createWhereSqlQueryFilters "" none "maybe" = Except.ok [] ∧
    "maybe" ≠ "" ∧ lowerStr "maybe" ≠ "true" ∧ lowerStr "maybe" ≠ "false" :=
  ⟨by decide, by decide, by decide, by decide⟩

/-- C3 amended: when `hasEquity` is empty/absent the compiler emits
`equity >= 0`; when it lower-cases to "true" it emits `equity > 0` (matching
exactly the rows with equity > 0); when it lower-cases to "false" it emits
`equity = 0` (matching exactly the rows with equity = 0); every other value
yields no equity clause at all — so an equity clause is present only for
those three kinds of input, not always. -/
theorem hasEquity_filter_amended (t : String) (ms : Option ℚ) (he : String) (qs : List Pred)
    (h : Job.createWhereSqlQueryFilters t ms he = Except.ok qs) :
    (he = "" → Pred.equityGe0 ∈ qs) ∧
    (lowerStr he = "true" → Pred.equityGt0 ∈ qs) ∧
    (lowerStr he = "false" → Pred.equityEq0 ∈ qs) ∧
    (he ≠ "" → lowerStr he ≠ "true" → lowerStr he ≠ "false" →
      ∀ p ∈ qs, p.isEquityClause = false) ∧
    (∀ r : JobRow, evalPred r Pred.equityGt0 = true ↔ 0 < r.equity) ∧
    (∀ r : JobRow, evalPred r Pred.equityEq0 = true ↔ r.equity = 0) ∧
    (∀ r : JobRow, evalPred r Pred.equityGe0 = true ↔ 0 ≤ r.equity) := by
  have hc : Job.minSalaryCeiling ms = false := by
    cases hcc : Job.minSalaryCeiling ms
    · rfl
    · rw [Job.createWhereSqlQueryFilters, if_pos (by simp [hcc])] at h
      cases h
  rw [filters_ok t ms he hc] at h
  obtain rfl := Except.ok.inj h
  refine ⟨?_, ?_, ?_, ?_, ?_, ?_, ?_⟩
  · intro h0
    subst h0
    simp [List.mem_append]
  · intro h0
    simp [List.mem_append, h0]
  · intro h0
    simp [List.mem_append, h0]
  · intro h1 h2 h3 p hp
    have hl : ¬ (he.length == 0) = true := by
      simpa [string_length_zero_iff] using h1
    simp only [List.mem_append] at hp
    rcases hp with ((((hA | hB) | hC) | hD) | hE) <;>
      split_ifs at * <;> simp_all [Pred.isEquityClause]
  · intro r
    simp [evalPred]
  · intro r
    simp [evalPred]
  · intro r
    simp [evalPred]

/-- Witness for C3 (amended claim) at the input "TRUE". -/
theorem hasEquity_filter_amended_witness :
    (Pred.equityGt0 ∈ [Pred.equityGt0] ∧
      ∀ r : JobRow, evalPred r Pred.equityGt0 = true ↔ 0 < r.equity) :=
  ⟨(hasEquity_filter_amended "" none "TRUE" [Pred.equityGt0] (by decide)).2.1 (by decide),
   (hasEquity_filter_amended "" none "TRUE" [Pred.equityGt0] (by decide)).2.2.2.2.1⟩

/-- C10: for every non-empty title filter the compiled predicate is
`LOWER(title) LIKE '%<lower-cased operand>%'` with the operand spliced into
the pattern text, so LIKE metacharacters in the operand act as wildcards: the
filter "%" (pattern `%%%`) matches every row — including rows whose titles
contain no "%" — and the filter "_" (pattern `%_%`) matches a row titled "a",
which contains no "_". -/
theorem title_filter_like_wildcards (t : String) (h : 0 < t.length) :
    (Job.createWhereSqlQueryFilters t none "" =
      Except.ok [Pred.titleLike ("%" ++ lowerStr t ++ "%"), Pred.equityGe0]) ∧
    (∀ r : JobRow, evalPred r (Pred.titleLike ("%" ++ lowerStr "%" ++ "%")) = true) ∧
    (∀ r : JobRow, r.title = "a" →
      evalPred r (Pred.titleLike ("%" ++ lowerStr "_" ++ "%")) = true) := by
  refine ⟨?_, ?_, ?_⟩
  · rw [filters_ok t none "" rfl, if_pos h, if_neg (by decide), if_pos (by decide),
      if_neg (by decide), if_neg (by decide)]
    rfl
  · intro r
    simp only [evalPred]
    exact likeMatch_triple_percent _
  · intro r hr
    simp only [evalPred]
    rw [hr]
    decide

/-- Witness for C10 at the title filter "%". -/
theorem title_filter_like_wildcards_witness :
    (0 < ("%" : String).length) ∧
    (Job.createWhereSqlQueryFilters "%" none "" =
      Except.ok [Pred.titleLike ("%" ++ lowerStr "%" ++ "%"), Pred.equityGe0]) :=
  ⟨by decide, (title_filter_like_wildcards "%" (by decide)).1⟩

/-- C4: for every override map the partial-update builder applied to an empty
UpdateRequest fails with a ValidationError ("no data") — the error is
returned before any placeholder is generated; consequently, for every key and
every store, `update(key, {})` fails with that ValidationError and leaves the
store untouched. -/
theorem partialUpdate_empty_fails :
    (∀ m : List (String × String),
      sqlForPartialUpdate [] m = Except.error (JError.badRequestError "No data")) ∧
    (∀ db : Db, ∀ key : String,
      Job.update db key [] = (Except.error (JError.badRequestError "No data"), db)) := by
  constructor
  · intro m
    rfl
  · intro db key
    rfl

/-- C5, evaluated at the failing input: `create` of a job with equity 0
normalizes the returned equity to the native number 0 (via `parseFloat`), but
the subsequent `get` of the same key returns equity as the store's text "0" —
not the native floating-point value — so create-then-get does not return a
value equal to the created job with equity normalized. -/
theorem create_get_equity_not_normalized :
    (Job.create [] { title := "j", salary := 1, equity := 0, companyHandle := "c" }).1
      = Except.ok { title := "j", salary := 1, equity := Value.num 0, companyHandle := "c" } ∧
    Job.get (Job.create [] { title := "j", salary := 1, equity := 0, companyHandle := "c" }).2.1 "j"
      = Except.ok { title := "j", salary := 1, equity := Value.str "0", companyHandle := "c" } ∧
    Value.str "0" ≠ Value.num 0 :=
  ⟨by decide, by decide, by decide⟩

/-- C6 counterexample: `create` accepts a job with equity = −1, which lies
outside [0.0, 1.0] — the insert succeeds and the stored row has negative
equity, so create does not validate the lower equity bound. -/
theorem create_accepts_negative_equity_cex :
    ((Job.create [] { title := "neg", salary := 0, equity := -1, companyHandle := "c" }).1).isOk = true ∧
    (Job.create [] { title := "neg", salary := 0, equity := -1, companyHandle := "c" }).2.1
      = [{ title := "neg", salary := 0, equity := -1, companyHandle := "c" }] ∧
    ¬ (0 ≤ (-1 : ℚ)) :=
  ⟨by decide, by decide, by decide⟩

/-- C6 amended: `create` validates only equity ≤ 1.0 and salary ≥ 0 before
the insert, each rejection a ValidationError naming the offending value, so
every newly inserted row satisfies equity ≤ 1 and salary ≥ 0 (no lower bound
on equity is enforced). -/
theorem create_bounds_amended (db : Db) (x : JobInput) :
    (1 < x.equity → (Job.create db x).1 = Except.error (JError.badRequestError
      ("Equity value for job is invalid (<= 1.0): " ++ toString x.equity))) ∧
    (x.equity ≤ 1 → x.salary < 0 → (Job.create db x).1 = Except.error (JError.badRequestError
      ("Salary value for job is invalid (>= 0): " ++ toString x.salary))) ∧
    (∀ r ∈ (Job.create db x).2.1, r ∈ db ∨ (r.equity ≤ 1 ∧ 0 ≤ r.salary)) := by
  refine ⟨?_, ?_, ?_⟩
  · intro he
    rw [Job.create, if_pos (not_le.mpr he)]
  · intro he hs
    rw [Job.create, if_neg (not_not_intro he), if_pos (not_le.mpr hs)]
  · intro r hr
    by_cases he : x.equity ≤ 1
    · by_cases hs : 0 ≤ x.salary
      · rw [Job.create, if_neg (not_not_intro he), if_neg (not_not_intro hs)] at hr
        by_cases hdup : ((Job.matchesLowerTitle db x.title).head?).isSome = true
        · rw [if_pos hdup] at hr
          exact Or.inl hr
        · rw [if_neg hdup] at hr
          simp only [List.mem_append, List.mem_singleton] at hr
          rcases hr with hr | hr
          · exact Or.inl hr
          · subst hr
            exact Or.inr ⟨he, hs⟩
      · rw [Job.create, if_neg (not_not_intro he), if_pos hs] at hr
        exact Or.inl hr
    · rw [Job.create, if_pos he] at hr
      exact Or.inl hr

/-- Witness for C6 (amended claim) at equity = 2. -/
theorem create_bounds_amended_witness :
    ((1 : ℚ) < 2) ∧
    ((Job.create [] { title := "e", salary := 0, equity := 2, companyHandle := "c" }).1
      = Except.error (JError.badRequestError
        ("Equity value for job is invalid (<= 1.0): " ++ toString (2 : ℚ)))) :=
  ⟨by decide, (create_bounds_amended [] _).1 (by decide)⟩

/-- C9: on every rejected input `create` leaves the jobs table unchanged
(the error is returned before the INSERT); when several checks fail at once
the equity error (equity > 1.0) takes priority over the salary error
(salary < 0), which takes priority over the duplicate error; and the
duplicate-lookup SELECT is always the first executed statement — on error it
is the only one. -/
theorem create_check_order_spec (db : Db) (x : JobInput) :
    (((Job.create db x).1).isOk = false → (Job.create db x).2.1 = db) ∧
    (1 < x.equity → (Job.create db x).1 = Except.error (JError.badRequestError
      ("Equity value for job is invalid (<= 1.0): " ++ toString x.equity))) ∧
    (x.equity ≤ 1 → x.salary < 0 → (Job.create db x).1 = Except.error (JError.badRequestError
      ("Salary value for job is invalid (>= 0): " ++ toString x.salary))) ∧
    (x.equity ≤ 1 → 0 ≤ x.salary → (∃ r ∈ db, lowerStr r.title = lowerStr x.title) →
      (Job.create db x).1 = Except.error (JError.badRequestError ("Duplicate job: " ++ x.title))) ∧
    ((Job.create db x).2.2.head? = some (Stmt.selectDup (lowerStr x.title))) ∧
    (((Job.create db x).1).isOk = false →
      (Job.create db x).2.2 = [Stmt.selectDup (lowerStr x.title)]) := by
  by_cases he : x.equity ≤ 1
  · by_cases hs : 0 ≤ x.salary
    · by_cases hdup : ((Job.matchesLowerTitle db x.title).head?).isSome = true
      · rw [Job.create, if_neg (not_not_intro he), if_neg (not_not_intro hs), if_pos hdup]
        refine ⟨fun _ => rfl, ?_, ?_, fun _ _ _ => rfl, rfl, fun _ => rfl⟩
        · intro h1
          exact absurd he (not_le.mpr h1)
        · intro _ h2
          exact absurd hs (not_le.mpr h2)
      · rw [Job.create, if_neg (not_not_intro he), if_neg (not_not_intro hs), if_neg hdup]
        refine ⟨?_, ?_, ?_, ?_, rfl, ?_⟩
        · intro hk
          cases hk
        · intro h1
          exact absurd he (not_le.mpr h1)
        · intro _ h2
          exact absurd hs (not_le.mpr h2)
        · intro _ _ hex
          exact absurd ((matchesLowerTitle_head_isSome db x.title).mpr hex) hdup
        · intro hk
          cases hk
    · rw [Job.create, if_neg (not_not_intro he), if_pos hs]
      refine ⟨fun _ => rfl, ?_, fun _ _ => rfl, ?_, rfl, fun _ => rfl⟩
      · intro h1
        exact absurd he (not_le.mpr h1)
      · intro _ hs2 _
        exact absurd hs2 hs
  · rw [Job.create, if_pos he]
    refine ⟨fun _ => rfl, fun _ => rfl, ?_, ?_, rfl, fun _ => rfl⟩
    · intro he2 _
      exact absurd he2 he
    · intro he2 _ _
      exact absurd he2 he

/-- Witness for C9: with equity 2 and salary −1 both invalid, the equity
error is reported and the duplicate SELECT heads the statement log. -/
theorem create_check_order_spec_witness :
    ((1 : ℚ) < 2) ∧
    ((Job.create [] { title := "e", salary := -1, equity := 2, companyHandle := "c" }).1
      = Except.error (JError.badRequestError
        ("Equity value for job is invalid (<= 1.0): " ++ toString (2 : ℚ)))) ∧
    ((Job.create [] { title := "e", salary := -1, equity := 2, companyHandle := "c" }).2.2.head?
      = some (Stmt.selectDup (lowerStr "e"))) :=
  ⟨by decide, (create_check_order_spec [] _).2.1 (by decide),
   (create_check_order_spec [] _).2.2.2.2.1⟩

end Jobly
